import Mathlib

/-!
Shallow embedding of the run-preparation and binary-conversion pipeline of
`oasislmf/model_execution/bin.py`.

The filesystem is modelled as the list of currently existing paths; external
effects (symlink creation, conversion-tool subprocesses) are modelled by
boolean oracles.  The external file-set registry (`.files`: `INPUT_FILES`,
`GUL_INPUT_FILES`, `IL_INPUT_FILES`, `TAR_FILE`) is not part of the sources,
so every operation is parametrised by the registry lists it consumes, exactly
as the Python functions consume the imported tables.
-/

namespace Oasis

/-- Filesystem state: the list of currently existing paths (files and
directories), written with forward-slash separators. -/
structure FS where
  entries : List String

/-- Python `os.path.exists`, as membership in the filesystem state. -/
def FS.pathExists (fs : FS) (p : String) : Bool :=
  fs.entries.contains p

/-- Python `os.path.join` for the two-argument uses in the source
(`os.path.sep` is `/`). -/
def osPathJoin (a b : String) : String :=
  a ++ "/" ++ b

/-- When `p` is a direct child of directory `dir` (that is, `p` is
`dir ++ "/" ++ name` with `name` slash-free and nonempty), return `name`.
Used to model `os.listdir` and `glob.glob` over the filesystem state. -/
def childName (dir p : String) : Option String :=
  let pre := (dir ++ "/").data
  if pre.isPrefixOf p.data then
    let rest := p.data.drop pre.length
    if rest.isEmpty || rest.contains '/' then none else some (String.mk rest)
  else none

/-- Python `os.listdir dir`: names of the direct children of `dir` present in
the filesystem state, in filesystem-state order. -/
def dirChildren (fs : FS) (dir : String) : List String :=
  fs.entries.filterMap (childName dir)

/-- Python substring containment, `needle in hay`. -/
def strContainsSub (hay needle : String) : Bool :=
  hay.data.tails.any (fun t => needle.data.isPrefixOf t)

/-- Specification-side pattern: the reinsurance-layer naming pattern
`RI_<digits>` (the letters `RI_` followed by one or more digits), as the
specification and the claims state it (the regex `RI_\d+$` anchored as a full
match). -/
def matchesRIDigits (s : String) : Bool :=
  match s.data with
  | c1 :: c2 :: c3 :: c4 :: rest =>
      c1 == 'R' && c2 == 'I' && c3 == '_' && c4.isDigit && rest.all Char.isDigit
  | _ => false

/-- fnmatch semantics of the Python glob pattern `RI_[0-9]*` used by
`create_binary_files` (line 276): the literal prefix `RI_`, then the character
class `[0-9]` matching exactly one digit, then `*` matching any remaining
characters, possibly none. -/
def globMatchRIDigitStar (name : String) : Bool :=
  match name.data with
  | c1 :: c2 :: c3 :: c4 :: _ =>
      c1 == 'R' && c2 == 'I' && c3 == '_' && c4.isDigit
  | _ => false

/-- fnmatch semantics of the Python glob pattern `RI_\d+$` used by
`check_inputs_directory` (line 225): the pattern contains none of the glob
metacharacters `*`, `?`, `[`, so every character — including the backslash,
the `d`, the `+` and the `$` — is literal, and the pattern matches exactly the
name `RI_\d+$`. -/
def globLiteralRIRegex (name : String) : Bool :=
  name == "RI_\\d+$"

/-- One entry of the external file-set registry: a canonical `name`, a
category `type` (`"optional"`, `"il"`, or core/GUL), and the identifier of the
registered `conversion_tool`.  The registry dictionary is keyed by the
canonical name, so `viewkeys` enumerates the same names as the entries. -/
structure InputFileRec where
  name : String
  type : String
  conversion_tool : String

/-- Names checked by `_check_each_inputs_directory` (lines 234-237): all
non-optional entries when `do_il` is set, otherwise all entries that are
neither optional nor IL. -/
def activeCheckNames (INPUT_FILES : List InputFileRec) (do_il : Bool) : List String :=
  if do_il then
    (INPUT_FILES.filter (fun f => !(f.type == "optional"))).map (fun f => f.name)
  else
    (INPUT_FILES.filter (fun f => !(f.type == "optional") && !(f.type == "il"))).map (fun f => f.name)

/-- The member loop of `_check_each_inputs_directory` (lines 239-247): for
each name in turn, fail if `<dir>/<name>.csv` is absent, then — when
`check_binaries` — fail if `<dir>/<name>.bin` is present. -/
def checkFilesLoop (fs : FS) (directory_to_check : String) (check_binaries : Bool) :
    List String → Except String Unit
  | [] => Except.ok ()
  | name :: rest =>
    let csv_path := osPathJoin directory_to_check (name ++ ".csv")
    if !(fs.pathExists csv_path) then
      Except.error ("Failed to find " ++ csv_path)
    else
      let bin_path := osPathJoin directory_to_check (name ++ ".bin")
      if check_binaries && fs.pathExists bin_path then
        Except.error ("Binary file already exists: " ++ bin_path)
      else
        checkFilesLoop fs directory_to_check check_binaries rest

/-- Python `_check_each_inputs_directory` (lines 229-247). -/
def check_each_inputs_directory (INPUT_FILES : List InputFileRec) (fs : FS)
    (directory_to_check : String) (do_il check_binaries : Bool) : Except String Unit :=
  checkFilesLoop fs directory_to_check check_binaries (activeCheckNames INPUT_FILES do_il)

/-- The directories produced by `glob.glob('{}{}RI_\d+$'.format(...))` on line
225: the children of the directory whose name equals the literal string
`RI_\d+$`, returned as full paths. -/
def riLiteralGlobDirs (fs : FS) (directory_to_check : String) : List String :=
  ((dirChildren fs directory_to_check).filter globLiteralRIRegex).map
    (fun n => osPathJoin directory_to_check n)

/-- The RI loop of `check_inputs_directory` (lines 224-226): each globbed
directory is checked with `do_il=True`. -/
def checkRIDirsLoop (INPUT_FILES : List InputFileRec) (fs : FS) (check_binaries : Bool) :
    List String → Except String Unit
  | [] => Except.ok ()
  | d :: rest =>
    match check_each_inputs_directory INPUT_FILES fs d true check_binaries with
    | Except.error e => Except.error e
    | Except.ok _ => checkRIDirsLoop INPUT_FILES fs check_binaries rest

/-- Python `check_inputs_directory` (lines 205-226). -/
def check_inputs_directory (INPUT_FILES : List InputFileRec) (fs : FS)
    (directory_to_check : String) (do_il do_ri check_binaries : Bool) : Except String Unit :=
  match check_each_inputs_directory INPUT_FILES fs directory_to_check do_il check_binaries with
  | Except.error e => Except.error e
  | Except.ok _ =>
    if do_ri then
      checkRIDirsLoop INPUT_FILES fs check_binaries (riLiteralGlobDirs fs directory_to_check)
    else
      Except.ok ()

/-- The relocation step of the inputs-archive branch of
`prepare_model_run_directory` (lines 131-132): given the top-level entries
extracted under `runPath/input`, the entries moved out to `runPath` are those
whose name contains the substring `RI_` (Python `'RI_' in d`). -/
def inputsArchiveRIMoves (extracted : List String) : List String :=
  extracted.filter (fun d => strContainsSub d "RI_")

/-- The complement of `inputsArchiveRIMoves`: the extracted top-level entries
that stay under `runPath/input`. -/
def inputsArchiveRemaining (extracted : List String) : List String :=
  extracted.filter (fun d => !(strContainsSub d "RI_"))

/-- Python `dict.get` over an association list. -/
def dictGet (d : List (String × String)) (k : String) : Option String :=
  (d.find? (fun kv => kv.1 == k)).map (fun kv => kv.2)

/-- Python truthiness of an optional string (`if not setting_val`): an absent
value and the empty string are both falsy. -/
def pyTruthy : Option String → Bool
  | none => false
  | some s => !(s.isEmpty)

/-- The data-file-name normalisation of `_prepare_input_bin` (line 173):
`setting_val.replace(' ', '_').lower()`. -/
def formatSettingVal (v : String) : String :=
  String.mk ((v.data.map (fun c => if c == ' ' then '_' else c)).map Char.toLower)

/-- `model_settings.get(setting_key)` on line 167; a `None` key (as passed for
`returnperiods` and `periods`) looks up nothing. -/
def settingValOf (model_settings : List (String × String)) (setting_key : Option String) :
    Option String :=
  match setting_key with
  | none => none
  | some k => dictGet model_settings k

/-- The static source path computed on lines 169-174: unsuffixed when the
setting value is falsy, otherwise suffixed with the normalised value. -/
def staticBinPath (run_dir bin_name : String) (setting_val : Option String) : String :=
  if !(pyTruthy setting_val) then
    osPathJoin (osPathJoin run_dir "static") (bin_name ++ ".bin")
  else
    osPathJoin (osPathJoin run_dir "static")
      (bin_name ++ "_" ++ formatSettingVal (setting_val.getD "") ++ ".bin")

/-- Python `_prepare_input_bin` (lines 164-179).  The result is `ok none` when
`input/<name>.bin` already exists, an error naming the missing static source
when it is absent, and otherwise `ok (some (source, destination))` for the
`shutil.copyfile` performed.  The `ri` parameter is accepted, as in the
source, and never used. -/
def prepare_input_bin (fs : FS) (run_dir bin_name : String)
    (model_settings : List (String × String)) (setting_key : Option String) (ri : Bool) :
    Except String (Option (String × String)) :=
  if fs.pathExists (osPathJoin (osPathJoin run_dir "input") (bin_name ++ ".bin")) then
    Except.ok none
  else if !(fs.pathExists (staticBinPath run_dir bin_name (settingValOf model_settings setting_key))) then
    Except.error ("Could not find " ++ bin_name ++ " data file: "
      ++ staticBinPath run_dir bin_name (settingValOf model_settings setting_key))
  else
    Except.ok (some (staticBinPath run_dir bin_name (settingValOf model_settings setting_key),
      osPathJoin (osPathJoin run_dir "input") (bin_name ++ ".bin")))

/-- The analysis-settings document, reduced to the `model_settings` object
that is the only part read (`analysis_settings.get('model_settings', {})`). -/
structure AnalysisSettings where
  model_settings : List (String × String)

/-- Python `prepare_model_run_inputs` (lines 182-202), returning the list of
`(source, destination)` copies performed. -/
def prepare_model_run_inputs (fs : FS) (analysis_settings : AnalysisSettings)
    (run_dir : String) (ri : Bool) : Except String (List (String × String)) :=
  match prepare_input_bin fs run_dir "events" analysis_settings.model_settings
      (some "event_set") ri with
  | Except.error e => Except.error e
  | Except.ok a1 =>
    match prepare_input_bin fs run_dir "returnperiods" analysis_settings.model_settings
        none ri with
    | Except.error e => Except.error e
    | Except.ok a2 =>
      match prepare_input_bin fs run_dir "occurrence" analysis_settings.model_settings
          (some "event_occurrence_id") ri with
      | Except.error e => Except.error e
      | Except.ok a3 =>
        match (if fs.pathExists (osPathJoin (osPathJoin run_dir "static") "periods.bin") then
            prepare_input_bin fs run_dir "periods" analysis_settings.model_settings none ri
          else
            Except.ok none) with
        | Except.error e => Except.error e
        | Except.ok a4 =>
          Except.ok (a1.toList ++ a2.toList ++ a3.toList ++ a4.toList)

/-- The copy actions of a successful result, the empty list on an error. -/
def exceptActions (r : Except String (List (String × String))) : List (String × String) :=
  match r with
  | Except.ok l => l
  | Except.error _ => []

/-- One filesystem action of the model-data branch: a symbolic link or a
recursive `shutil.copytree`, each carrying `(source, destination)`. -/
inductive ModelDataAction where
  | link : String → String → ModelDataAction
  | copytree : String → String → ModelDataAction

/-- The model-data branch of `prepare_model_run_directory` (lines 150-158):
for every top-level entry of the model-data source directory, attempt a
symlink (success decided by the oracle `symlinkOk`); on failure, fall back to
`shutil.copytree(model_data_src_path, static/<entry>)` — note the source
passes the whole source directory, not the entry path, to `copytree`. -/
def prepareModelDataStatic (symlinkOk : String → Bool)
    (model_data_src_path run_dir : String) (entries : List String) : List ModelDataAction :=
  entries.map (fun filename =>
    let path := osPathJoin model_data_src_path filename
    let dest := osPathJoin (osPathJoin run_dir "static") filename
    if symlinkOk path then
      ModelDataAction.link path dest
    else
      ModelDataAction.copytree model_data_src_path dest)

/-- Registry entries converted by `_create_set_of_binary_files`
(lines 287-290): everything when `do_il`, otherwise everything not of type
`il`.  Unlike the inputs check, optional entries are included. -/
def activeCreateFiles (INPUT_FILES : List InputFileRec) (do_il : Bool) : List InputFileRec :=
  if do_il then INPUT_FILES else INPUT_FILES.filter (fun f => !(f.type == "il"))

/-- The conversion loop of `_create_set_of_binary_files` (lines 292-304): an
absent source CSV is skipped with `continue`; otherwise the registered tool is
invoked (success decided by the oracle `toolOk`), a failure raising the
wrapped `CalledProcessError`.  Returns the binary paths produced. -/
def convLoop (fs : FS) (toolOk : String → String → String → Bool)
    (csv_directory bin_directory : String) : List InputFileRec → Except String (List String)
  | [] => Except.ok []
  | f :: rest =>
    let input_file_path := osPathJoin csv_directory (f.name ++ ".csv")
    if !(fs.pathExists input_file_path) then
      convLoop fs toolOk csv_directory bin_directory rest
    else
      let output_file_path := osPathJoin bin_directory (f.name ++ ".bin")
      if toolOk f.conversion_tool input_file_path output_file_path then
        match convLoop fs toolOk csv_directory bin_directory rest with
        | Except.ok outs => Except.ok (output_file_path :: outs)
        | Except.error e => Except.error e
      else
        Except.error ("CalledProcessError: " ++ f.conversion_tool ++ " < "
          ++ input_file_path ++ " > " ++ output_file_path)

/-- Python `_create_set_of_binary_files` (lines 280-304); the `os.mkdir` of
the target directory is not tracked by the file-list state. -/
def create_set_of_binary_files (INPUT_FILES : List InputFileRec) (fs : FS)
    (toolOk : String → String → String → Bool) (csv_directory bin_directory : String)
    (do_il : Bool) : Except String (List String) :=
  convLoop fs toolOk csv_directory bin_directory (activeCreateFiles INPUT_FILES do_il)

/-- Python `os.path.basename`: the part of the path after the last slash. -/
def basename (p : String) : String :=
  String.mk ((p.data.reverse.takeWhile (fun c => !(c == '/'))).reverse)

/-- The directories produced by `glob.glob('{}{}RI_[0-9]*'.format(csvdir,
os.sep))` on line 276: the children of `csvdir` matching the glob pattern
`RI_[0-9]*`, as full paths. -/
def ri_pass_dirs (fs : FS) (csvdir : String) : List String :=
  ((dirChildren fs csvdir).filter globMatchRIDigitStar).map (fun n => osPathJoin csvdir n)

/-- The RI loop of `create_binary_files` (lines 275-278): each globbed
directory gets a conversion pass into `binDir/<basename>` with `do_il=True`. -/
def riPassesLoop (INPUT_FILES : List InputFileRec) (fs : FS)
    (toolOk : String → String → String → Bool) (bindir : String) :
    List String → Except String (List String)
  | [] => Except.ok []
  | ri_csvdir :: rest =>
    match create_set_of_binary_files INPUT_FILES fs toolOk ri_csvdir
        (osPathJoin bindir (basename ri_csvdir)) true with
    | Except.error e => Except.error e
    | Except.ok outs =>
      match riPassesLoop INPUT_FILES fs toolOk bindir rest with
      | Except.error e => Except.error e
      | Except.ok more => Except.ok (outs ++ more)

/-- Python `create_binary_files` (lines 250-278), returning all binary paths
produced.  `os.path.abspath` is modelled as the identity (paths are taken
already absolute); `do_il = do_il or do_ri` is line 271. -/
def create_binary_files (INPUT_FILES : List InputFileRec) (fs : FS)
    (toolOk : String → String → String → Bool) (csv_directory bin_directory : String)
    (do_il do_ri : Bool) : Except String (List String) :=
  let do_il2 := do_il || do_ri
  match create_set_of_binary_files INPUT_FILES fs toolOk csv_directory bin_directory do_il2 with
  | Except.error e => Except.error e
  | Except.ok base =>
    if do_ri then
      match riPassesLoop INPUT_FILES fs toolOk bin_directory (ri_pass_dirs fs csv_directory) with
      | Except.error e => Except.error e
      | Except.ok riOuts => Except.ok (base ++ riOuts)
    else
      Except.ok base

/-- The expected member names of `check_binary_tar_file` (lines 321-324):
`<name>.bin` for the GUL registry entries, then for the IL entries when
`check_il`. -/
def expectedTarMembers (GUL_INPUT_FILES IL_INPUT_FILES : List InputFileRec)
    (check_il : Bool) : List String :=
  (GUL_INPUT_FILES.map (fun f => f.name ++ ".bin"))
    ++ (if check_il then IL_INPUT_FILES.map (fun f => f.name ++ ".bin") else [])

/-- The member loop of `check_binary_tar_file` (lines 326-331):
`tar.getmember` raises `KeyError` on the first expected name absent from the
archive's member list. -/
def tarMemberLoop (tarMembers : List String) (tar_file_path : String) :
    List String → Except String Bool
  | [] => Except.ok true
  | m :: rest =>
    if tarMembers.contains m then
      tarMemberLoop tarMembers tar_file_path rest
    else
      Except.error (m ++ " is missing from the tar file " ++ tar_file_path ++ ".")

/-- Python `check_binary_tar_file` (lines 306-333); `tarMembers` is the list
of member names stored in the archive. -/
def check_binary_tar_file (GUL_INPUT_FILES IL_INPUT_FILES : List InputFileRec)
    (tarMembers : List String) (tar_file_path : String) (check_il : Bool) :
    Except String Bool :=
  tarMemberLoop tarMembers tar_file_path
    (expectedTarMembers GUL_INPUT_FILES IL_INPUT_FILES check_il)

/-- The first expected member absent from the archive, if any. -/
def firstMissingMember (tarMembers : List String) (expected : List String) : Option String :=
  expected.find? (fun m => !(tarMembers.contains m))

/-- Python `os.remove`. -/
def osRemove (fs : FS) (p : String) : FS :=
  FS.mk (fs.entries.filter (fun q => !(q == p)))

/-- The removal loop of `cleanup_bin_directory` (lines 385-388): each target
is removed when present; an absent target is left alone, not an error. -/
def cleanupLoop (fs : FS) (directory : String) : List String → FS
  | [] => fs
  | file :: rest =>
    let file_path := osPathJoin directory file
    cleanupLoop (if fs.pathExists file_path then osRemove fs file_path else fs) directory rest

/-- Python `cleanup_bin_directory` (lines 381-388): the targets are the
well-known archive name (`TAR_FILE`, imported from the external registry
module) and `<name>.bin` for every registry key. -/
def cleanup_bin_directory (TAR_FILE : String) (INPUT_FILES : List InputFileRec)
    (fs : FS) (directory : String) : FS :=
  cleanupLoop fs directory (TAR_FILE :: INPUT_FILES.map (fun f => f.name ++ ".bin"))

/-- Registry fixture: the hypothetical registry of the specification's example
— the CSV members `loc`, `acc`, `cov` registered as core files with tool `T`. -/
def sampleRegistry : List InputFileRec :=
  [InputFileRec.mk "loc" "gul" "T", InputFileRec.mk "acc" "gul" "T",
   InputFileRec.mk "cov" "gul" "T"]

/-- Bridge lemma: boolean list containment agrees with membership. -/
theorem containsEqTrueIffMem (l : List String) (a : String) :
    l.contains a = true ↔ a ∈ l := by
  simp

/-- Bridge lemma: a path absent from a list has `contains` false. -/
theorem containsEqFalseOfNotMem {l : List String} {a : String} (h : a ∉ l) :
    l.contains a = false := by
  cases hc : l.contains a with
  | false => rfl
  | true => exact absurd ((containsEqTrueIffMem l a).mp hc) h

/-- C1: the specification requires `check_inputs_directory` with `do_ri=true`
to repeat the per-directory check (with IL files) inside every `RI_<digits>`
subdirectory and hence to fail when such a subdirectory is missing a required
CSV.  The code instead globs for the literal name `RI_\d+$` (regex syntax in
a glob pattern), which matches no `RI_<n>` directory, so the check never
recurses: here `d/RI_1` exists and is empty, `RI_1` matches the
specification's `RI_<digits>` pattern, the per-directory check applied to
`d/RI_1` would fail on the missing CSV, and yet the operation succeeds. -/
theorem c1_ri_check_never_recurses :
    check_inputs_directory sampleRegistry
        (FS.mk ["d/loc.csv", "d/acc.csv", "d/cov.csv", "d/RI_1"]) "d" false true true
      = Except.ok ()
    ∧ matchesRIDigits "RI_1" = true
    ∧ check_each_inputs_directory sampleRegistry
        (FS.mk ["d/loc.csv", "d/acc.csv", "d/cov.csv", "d/RI_1"]) "d/RI_1" true true
      = Except.error "Failed to find d/RI_1/loc.csv" :=
  ⟨rfl, rfl, rfl⟩

/-- C2 counterexample: the extracted top-level entry `RI_A` does not match
the reinsurance-layer pattern `RI_<digits>`, yet the relocation step moves it
out of `runPath/input`, because the source tests substring containment of
`RI_` rather than the pattern.  This refutes the claim that exactly the
entries matching `RI_<digits>` are relocated. -/
theorem c2_counterexample_substring_relocation :
    inputsArchiveRIMoves ["RI_A", "x.bin"] = ["RI_A"]
    ∧ matchesRIDigits "RI_A" = false :=
  ⟨rfl, rfl⟩

/-- C2 (amended): after extraction of an inputs archive, exactly those
extracted top-level entries whose names contain the substring `RI_` anywhere
are relocated to become direct children of the run directory, and every entry
whose name does not contain `RI_` remains under `runPath/input`. -/
theorem c2_relocation_by_substring (extracted : List String) (d : String) :
    (d ∈ inputsArchiveRIMoves extracted
      ↔ d ∈ extracted ∧ strContainsSub d "RI_" = true)
    ∧ (d ∈ inputsArchiveRemaining extracted
      ↔ d ∈ extracted ∧ strContainsSub d "RI_" = false) := by
  constructor
  · simp [inputsArchiveRIMoves, List.mem_filter]
  · simp [inputsArchiveRemaining, List.mem_filter]

/-- Witness for the amended C2 statement at a concrete archive listing. -/
theorem c2_relocation_witness :
    "RI_1" ∈ inputsArchiveRIMoves ["RI_1", "foo"]
      ↔ "RI_1" ∈ ["RI_1", "foo"] ∧ strContainsSub "RI_1" "RI_" = true :=
  (c2_relocation_by_substring ["RI_1", "foo"] "RI_1").1

/-- C7: the specification says that when symlinking a top-level model-data
entry fails, that same entry is recursively copied to `runPath/static/<entry>`.
The code instead passes the whole model-data source directory to
`shutil.copytree`: with source `md` holding entries `a` and `b` and symlink
creation failing, both fallback copies read from `md` itself (the computed
entry path is never used), not from `md/a` and `md/b` as the specification
requires. -/
theorem c7_fallback_copies_source_root :
    prepareModelDataStatic (fun _ => false) "md" "run" ["a", "b"]
      = [ModelDataAction.copytree "md" "run/static/a",
         ModelDataAction.copytree "md" "run/static/b"] :=
  rfl

/-- When every checked CSV is present, the member loop reduces to a search for
the first stale binary. -/
theorem checkFilesLoopAllCsvPresent (fs : FS) (d : String) (names : List String)
    (h : ∀ n ∈ names, fs.pathExists (osPathJoin d (n ++ ".csv")) = true) :
    checkFilesLoop fs d true names
      = match names.find? (fun n => fs.pathExists (osPathJoin d (n ++ ".bin"))) with
        | some n => Except.error ("Binary file already exists: " ++ osPathJoin d (n ++ ".bin"))
        | none => Except.ok () := by
  induction names with
  | nil => rfl
  | cons n rest ih =>
    have hn := h n (List.mem_cons_self n rest)
    have hrest := fun m hm => h m (List.mem_cons_of_mem n hm)
    rw [List.find?_cons]
    cases hb : fs.pathExists (osPathJoin d (n ++ ".bin")) with
    | true => simp [checkFilesLoop, hn, hb]
    | false => simp [checkFilesLoop, hn, hb, ih hrest]

/-- C3 counterexample: in an empty directory no required binary exists at all,
yet `check_inputs_directory` with `check_binaries=true` fails (on the missing
CSV), refuting the claim that the operation fails only if a required binary
exists alongside its CSV. -/
theorem c3_counterexample_fails_without_binaries :
    check_inputs_directory sampleRegistry (FS.mk []) "d" false false true
      = Except.error "Failed to find d/loc.csv"
    ∧ (FS.mk ([] : List String)).pathExists "d/loc.bin" = false :=
  ⟨rfl, rfl⟩

/-- C3 (amended): for every input directory in which every required CSV is
present, the per-directory check run by `check_inputs_directory` with
`check_binaries=true` (and `do_ri=false`) fails iff at least one required
binary `<name>.bin` exists, and on such a failure the error names the
offending binary path. -/
theorem c3_stale_binary_check (INPUT_FILES : List InputFileRec) (fs : FS) (d : String)
    (do_il : Bool)
    (hcsv : ∀ n ∈ activeCheckNames INPUT_FILES do_il,
      fs.pathExists (osPathJoin d (n ++ ".csv")) = true) :
    ((∃ e, check_inputs_directory INPUT_FILES fs d do_il false true = Except.error e)
      ↔ ∃ n ∈ activeCheckNames INPUT_FILES do_il,
          fs.pathExists (osPathJoin d (n ++ ".bin")) = true)
    ∧ ∀ e, check_inputs_directory INPUT_FILES fs d do_il false true = Except.error e →
        ∃ n ∈ activeCheckNames INPUT_FILES do_il,
          fs.pathExists (osPathJoin d (n ++ ".bin")) = true
          ∧ e = "Binary file already exists: " ++ osPathJoin d (n ++ ".bin") := by
  have hloop := checkFilesLoopAllCsvPresent fs d (activeCheckNames INPUT_FILES do_il) hcsv
  cases hf : (activeCheckNames INPUT_FILES do_il).find?
      (fun n => fs.pathExists (osPathJoin d (n ++ ".bin"))) with
  | none =>
    rw [hf] at hloop
    have hc : check_inputs_directory INPUT_FILES fs d do_il false true = Except.ok () := by
      unfold check_inputs_directory check_each_inputs_directory
      rw [hloop]
      rfl
    constructor
    · constructor
      · rintro ⟨e, he⟩
        rw [hc] at he
        exact absurd he (by simp)
      · rintro ⟨n, hn, hb⟩
        have := List.find?_eq_none.mp hf n hn
        simp [hb] at this
    · intro e he
      rw [hc] at he
      exact absurd he (by simp)
  | some n =>
    rw [hf] at hloop
    have hc : check_inputs_directory INPUT_FILES fs d do_il false true
        = Except.error ("Binary file already exists: " ++ osPathJoin d (n ++ ".bin")) := by
      unfold check_inputs_directory check_each_inputs_directory
      rw [hloop]
    have hmem := List.mem_of_find?_eq_some hf
    have hp := List.find?_some hf
    constructor
    · exact ⟨fun _ => ⟨n, hmem, hp⟩, fun _ => ⟨_, hc⟩⟩
    · intro e he
      rw [hc] at he
      exact ⟨n, hmem, hp, (Except.error.inj he).symm⟩

/-- Witness for the amended C3 statement: all three CSVs present and a stale
`loc.bin` alongside. -/
theorem c3_stale_binary_witness :
    (∀ n ∈ activeCheckNames sampleRegistry false,
      (FS.mk ["d/loc.csv", "d/acc.csv", "d/cov.csv", "d/loc.bin"]).pathExists
        (osPathJoin "d" (n ++ ".csv")) = true)
    ∧ ((∃ e, check_inputs_directory sampleRegistry
          (FS.mk ["d/loc.csv", "d/acc.csv", "d/cov.csv", "d/loc.bin"]) "d" false false true
          = Except.error e)
        ↔ ∃ n ∈ activeCheckNames sampleRegistry false,
            (FS.mk ["d/loc.csv", "d/acc.csv", "d/cov.csv", "d/loc.bin"]).pathExists
              (osPathJoin "d" (n ++ ".bin")) = true) :=
  ⟨by decide,
   (c3_stale_binary_check sampleRegistry
     (FS.mk ["d/loc.csv", "d/acc.csv", "d/cov.csv", "d/loc.bin"]) "d" false (by decide)).1⟩

/-- Plain-language characterisation of the glob pattern `RI_[0-9]*`: a name
matches iff it is `RI_` followed by one digit and then an arbitrary (possibly
empty) remainder. -/
theorem globMatchRIDigitStarIff (name : String) :
    globMatchRIDigitStar name = true
      ↔ ∃ ch rest, name.data = 'R' :: 'I' :: '_' :: ch :: rest ∧ ch.isDigit = true := by
  rcases name with ⟨data⟩
  rcases data with _ | ⟨c1, _ | ⟨c2, _ | ⟨c3, _ | ⟨c4, rest⟩⟩⟩⟩ <;>
    simp [globMatchRIDigitStar] <;>
    aesop

/-- C4 counterexample: `RI_1x` does not match `RI_[0-9]+` (the letters `RI_`
followed by digits only), yet `create_binary_files` with `do_ri=true` runs an
extra conversion pass in it, producing `bin/RI_1x/loc.bin`, because the glob
pattern `RI_[0-9]*` requires only one digit after `RI_` followed by anything. -/
theorem c4_counterexample_glob_star :
    matchesRIDigits "RI_1x" = false
    ∧ create_binary_files sampleRegistry
        (FS.mk ["csv/loc.csv", "csv/RI_1x", "csv/RI_1x/loc.csv"])
        (fun _ _ _ => true) "csv" "bin" false true
      = Except.ok ["bin/loc.bin", "bin/RI_1x/loc.bin"] :=
  ⟨rfl, rfl⟩

/-- C4 (amended): `create_binary_files` forces IL inclusion whenever
`do_ri=true`, and the extra conversion passes are run for exactly the direct
children of `csvDir` matching the glob `RI_[0-9]*` — that is, names beginning
with `RI_` followed by at least one digit and then any (possibly empty)
suffix — each read from `csvDir/<child>` and written to `binDir/<child>`. -/
theorem c4_ri_pass_selection (INPUT_FILES : List InputFileRec) (fs : FS)
    (toolOk : String → String → String → Bool) (csvd bind : String) (do_il : Bool)
    (d nm : String) :
    create_binary_files INPUT_FILES fs toolOk csvd bind do_il true
      = create_binary_files INPUT_FILES fs toolOk csvd bind true true
    ∧ (d ∈ ri_pass_dirs fs csvd
        ↔ ∃ c ∈ dirChildren fs csvd, globMatchRIDigitStar c = true ∧ osPathJoin csvd c = d)
    ∧ (globMatchRIDigitStar nm = true
        ↔ ∃ ch rest, nm.data = 'R' :: 'I' :: '_' :: ch :: rest ∧ ch.isDigit = true) := by
  refine ⟨?_, ?_, globMatchRIDigitStarIff nm⟩
  · simp [create_binary_files]
  · simp [ri_pass_dirs, List.mem_map, List.mem_filter]
    aesop

/-- Witness for the amended C4 statement: the IL-forcing equation at a
concrete directory state. -/
theorem c4_ri_pass_witness :
    create_binary_files sampleRegistry (FS.mk ["csv/loc.csv"]) (fun _ _ _ => true)
        "csv" "bin" false true
      = create_binary_files sampleRegistry (FS.mk ["csv/loc.csv"]) (fun _ _ _ => true)
        "csv" "bin" true true :=
  (c4_ri_pass_selection sampleRegistry (FS.mk ["csv/loc.csv"]) (fun _ _ _ => true)
    "csv" "bin" false "x" "RI_2").1

/-- When every invoked tool succeeds, the conversion loop succeeds and
produces exactly the binaries of the members whose CSV is present; members
with an absent CSV are skipped. -/
theorem convLoopAllToolsOk (fs : FS) (toolOk : String → String → String → Bool)
    (csvd bind : String) (files : List InputFileRec)
    (h : ∀ f ∈ files, fs.pathExists (osPathJoin csvd (f.name ++ ".csv")) = true →
      toolOk f.conversion_tool (osPathJoin csvd (f.name ++ ".csv"))
        (osPathJoin bind (f.name ++ ".bin")) = true) :
    convLoop fs toolOk csvd bind files
      = Except.ok ((files.filter
          (fun f => fs.pathExists (osPathJoin csvd (f.name ++ ".csv")))).map
          (fun f => osPathJoin bind (f.name ++ ".bin"))) := by
  induction files with
  | nil => rfl
  | cons f rest ih =>
    have hrest := fun g hg => h g (List.mem_cons_of_mem f hg)
    have ihr := ih hrest
    cases hp : fs.pathExists (osPathJoin csvd (f.name ++ ".csv")) with
    | false => simp [convLoop, hp, List.filter_cons, ihr]
    | true =>
      have ht := h f (List.mem_cons_self f rest) hp
      simp [convLoop, hp, ht, List.filter_cons, ihr]

/-- C5: in a conversion pass, every active member whose source CSV is absent
is silently skipped — the pass succeeds (assuming the tools themselves
succeed on the present members) and produces binaries for exactly the members
whose CSV exists. -/
theorem c5_absent_csv_skipped (INPUT_FILES : List InputFileRec) (fs : FS)
    (toolOk : String → String → String → Bool) (csvd bind : String) (do_il : Bool)
    (h : ∀ f ∈ activeCreateFiles INPUT_FILES do_il,
      fs.pathExists (osPathJoin csvd (f.name ++ ".csv")) = true →
      toolOk f.conversion_tool (osPathJoin csvd (f.name ++ ".csv"))
        (osPathJoin bind (f.name ++ ".bin")) = true) :
    create_set_of_binary_files INPUT_FILES fs toolOk csvd bind do_il
      = Except.ok (((activeCreateFiles INPUT_FILES do_il).filter
          (fun f => fs.pathExists (osPathJoin csvd (f.name ++ ".csv")))).map
          (fun f => osPathJoin bind (f.name ++ ".bin"))) :=
  convLoopAllToolsOk fs toolOk csvd bind (activeCreateFiles INPUT_FILES do_il) h

/-- Witness for C5, the specification's own example: members `loc`, `acc`,
`cov` registered as core files with tool `T`, only `loc.csv` and `acc.csv`
present — the pass produces exactly `loc.bin` and `acc.bin` and succeeds. -/
theorem c5_absent_csv_witness :
    create_set_of_binary_files sampleRegistry (FS.mk ["csv/loc.csv", "csv/acc.csv"])
        (fun _ _ _ => true) "csv" "bin" false
      = Except.ok (((activeCreateFiles sampleRegistry false).filter
          (fun f => (FS.mk ["csv/loc.csv", "csv/acc.csv"]).pathExists
            (osPathJoin "csv" (f.name ++ ".csv")))).map
          (fun f => osPathJoin "bin" (f.name ++ ".bin")))
    ∧ create_set_of_binary_files sampleRegistry (FS.mk ["csv/loc.csv", "csv/acc.csv"])
        (fun _ _ _ => true) "csv" "bin" false
      = Except.ok ["bin/loc.bin", "bin/acc.bin"] :=
  ⟨c5_absent_csv_skipped sampleRegistry (FS.mk ["csv/loc.csv", "csv/acc.csv"])
      (fun _ _ _ => true) "csv" "bin" false (fun _ _ _ => rfl), rfl⟩

/-- C6: for a static role whose `input/<role>.bin` does not yet exist, the
expected source is `static/<role>.bin` when the role's setting key yields no
value (Python falsy: the key is absent or its value is the empty string), and
`static/<role>_<v>.bin` otherwise, where `v` is the setting value with spaces
replaced by underscores and lower-cased; if the expected file does not exist
the operation fails with a missing-data-file error naming that exact path,
and otherwise the expected file is copied to `input/<role>.bin`. -/
theorem c6_static_bin_resolution (fs : FS) (rd role : String)
    (ms : List (String × String)) (k : Option String) (ri : Bool)
    (hnot : fs.pathExists (osPathJoin (osPathJoin rd "input") (role ++ ".bin")) = false) :
    (pyTruthy (settingValOf ms k) = false →
      staticBinPath rd role (settingValOf ms k)
        = osPathJoin (osPathJoin rd "static") (role ++ ".bin"))
    ∧ (∀ v, settingValOf ms k = some v → v ≠ "" →
      staticBinPath rd role (settingValOf ms k)
        = osPathJoin (osPathJoin rd "static") (role ++ "_" ++ formatSettingVal v ++ ".bin"))
    ∧ (fs.pathExists (staticBinPath rd role (settingValOf ms k)) = false →
      prepare_input_bin fs rd role ms k ri
        = Except.error ("Could not find " ++ role ++ " data file: "
            ++ staticBinPath rd role (settingValOf ms k)))
    ∧ (fs.pathExists (staticBinPath rd role (settingValOf ms k)) = true →
      prepare_input_bin fs rd role ms k ri
        = Except.ok (some (staticBinPath rd role (settingValOf ms k),
            osPathJoin (osPathJoin rd "input") (role ++ ".bin")))) := by
  refine ⟨?_, ?_, ?_, ?_⟩
  · intro hv
    simp [staticBinPath, hv]
  · intro v hv hne
    have htr : pyTruthy (some v) = true := by
      cases he : v.isEmpty with
      | false => simp [pyTruthy, he]
      | true => exact absurd ((String.isEmpty_iff v).mp he) hne
    rw [hv]
    simp [staticBinPath, htr]
  · intro hm
    simp [prepare_input_bin, hnot, hm]
  · intro hm
    simp [prepare_input_bin, hnot, hm]

/-- Witness for C6, the specification's own example:
`model_settings.event_set = "Historical Set"` with
`static/events_historical_set.bin` absent fails naming that exact path. -/
theorem c6_static_bin_witness :
    prepare_input_bin (FS.mk []) "run" "events" [("event_set", "Historical Set")]
        (some "event_set") false
      = Except.error "Could not find events data file: run/static/events_historical_set.bin" := by
  have h := (c6_static_bin_resolution (FS.mk []) "run" "events"
      [("event_set", "Historical Set")] (some "event_set") false rfl).2.2.1 rfl
  rw [h]
  rfl

/-- The member loop of the tar check is exactly a search for the first
expected member absent from the archive. -/
theorem tarMemberLoopEqFirstMissing (tarMembers : List String) (tp : String)
    (names : List String) :
    tarMemberLoop tarMembers tp names
      = match firstMissingMember tarMembers names with
        | some m => Except.error (m ++ " is missing from the tar file " ++ tp ++ ".")
        | none => Except.ok true := by
  induction names with
  | nil => rfl
  | cons m rest ih =>
    unfold firstMissingMember at ih ⊢
    rw [List.find?_cons]
    cases hm : tarMembers.contains m with
    | true =>
      have hmem : m ∈ tarMembers := (containsEqTrueIffMem tarMembers m).mp hm
      simp [tarMemberLoop, hm, hmem, ih]
    | false =>
      have hmem : m ∉ tarMembers := by
        intro hx
        rw [(containsEqTrueIffMem tarMembers m).mpr hx] at hm
        exact Bool.noConfusion hm
      simp [tarMemberLoop, hm, hmem]

/-- Members outside the expected set never influence the tar check. -/
theorem tarMemberLoopFilterInvariant (P : String → Bool) (tarMembers : List String)
    (tp : String) (names : List String) (h : ∀ m ∈ names, P m = true) :
    tarMemberLoop (tarMembers.filter P) tp names = tarMemberLoop tarMembers tp names := by
  induction names with
  | nil => rfl
  | cons m rest ih =>
    have hm := h m (List.mem_cons_self m rest)
    have hrest := fun x hx => h x (List.mem_cons_of_mem m hx)
    have hc : (tarMembers.filter P).contains m = tarMembers.contains m := by
      by_cases hmem : m ∈ tarMembers
      · have h1 : m ∈ tarMembers.filter P := List.mem_filter.mpr ⟨hmem, hm⟩
        rw [(containsEqTrueIffMem tarMembers m).mpr hmem,
          (containsEqTrueIffMem (tarMembers.filter P) m).mpr h1]
      · have h1 : m ∉ tarMembers.filter P := fun hx => hmem (List.mem_filter.mp hx).1
        rw [containsEqFalseOfNotMem hmem, containsEqFalseOfNotMem h1]
    simp [tarMemberLoop, hc, ih hrest, hm]

/-- C8: `check_binary_tar_file` verifies exactly the GUL binary member names
plus the IL names when `check_il`; it is equal to a search for the first
missing expected member, failing with an error naming that member and the
archive and returning success when all are present; and its result is
unchanged when the archive's member list is restricted to the expected names,
so members outside that set — in particular `RI_<n>/`-prefixed layer members
— are never inspected. -/
theorem c8_tar_check (GUL_INPUT_FILES IL_INPUT_FILES : List InputFileRec)
    (tarMembers : List String) (tp : String) (check_il : Bool) :
    (check_binary_tar_file GUL_INPUT_FILES IL_INPUT_FILES tarMembers tp check_il
      = match firstMissingMember tarMembers
            (expectedTarMembers GUL_INPUT_FILES IL_INPUT_FILES check_il) with
        | some m => Except.error (m ++ " is missing from the tar file " ++ tp ++ ".")
        | none => Except.ok true)
    ∧ check_binary_tar_file GUL_INPUT_FILES IL_INPUT_FILES tarMembers tp check_il
      = check_binary_tar_file GUL_INPUT_FILES IL_INPUT_FILES
          (tarMembers.filter (fun x =>
            (expectedTarMembers GUL_INPUT_FILES IL_INPUT_FILES check_il).contains x))
          tp check_il := by
  constructor
  · exact tarMemberLoopEqFirstMissing tarMembers tp _
  · exact (tarMemberLoopFilterInvariant _ tarMembers tp _
      (fun m hm => (containsEqTrueIffMem _ m).mpr hm)).symm

/-- Witness for C8: restricting an archive listing with an extra RI-layer
member to the expected names leaves the check unchanged. -/
theorem c8_tar_check_witness :
    check_binary_tar_file sampleRegistry [] ["loc.bin", "RI_1/acc.bin"] "t.tar" false
      = check_binary_tar_file sampleRegistry []
          (["loc.bin", "RI_1/acc.bin"].filter (fun x =>
            (expectedTarMembers sampleRegistry [] false).contains x)) "t.tar" false :=
  (c8_tar_check sampleRegistry [] ["loc.bin", "RI_1/acc.bin"] "t.tar" false).2

/-- Membership in the cleanup loop's result: a path survives iff it was
present and is none of the removal targets. -/
theorem cleanupLoopMem (d : String) (files : List String) (fs : FS) (p : String) :
    p ∈ (cleanupLoop fs d files).entries
      ↔ p ∈ fs.entries ∧ ∀ f ∈ files, p ≠ osPathJoin d f := by
  induction files generalizing fs with
  | nil => simp [cleanupLoop]
  | cons f rest ih =>
    have step : ∀ q : String,
        q ∈ (if fs.pathExists (osPathJoin d f) then osRemove fs (osPathJoin d f) else fs).entries
          ↔ q ∈ fs.entries ∧ q ≠ osPathJoin d f := by
      intro q
      cases hx : fs.pathExists (osPathJoin d f) with
      | true =>
        simp [osRemove, List.mem_filter]
      | false =>
        have hnm : osPathJoin d f ∉ fs.entries := by
          intro hmem
          rw [FS.pathExists, (containsEqTrueIffMem fs.entries (osPathJoin d f)).mpr hmem] at hx
          exact Bool.noConfusion hx
        constructor
        · intro hq
          exact ⟨hq, fun e => hnm (e ▸ hq)⟩
        · exact fun hq => hq.1
    rw [cleanupLoop, ih]
    simp only [step p, List.forall_mem_cons]
    tauto

/-- The cleanup loop is the identity when none of its targets is present. -/
theorem cleanupLoopNoop (d : String) (files : List String) (fs : FS)
    (h : ∀ f ∈ files, fs.pathExists (osPathJoin d f) = false) :
    cleanupLoop fs d files = fs := by
  induction files with
  | nil => rfl
  | cons f rest ih =>
    have hf := h f (List.mem_cons_self f rest)
    rw [cleanupLoop, hf]
    exact ih (fun x hx => h x (List.mem_cons_of_mem f hx))

/-- C9: `cleanup_bin_directory` removes from the directory exactly the
well-known archive file and `<name>.bin` for every registry name, when
present; absence of a target is not an error (the operation is total and
simply leaves the state unchanged for absent targets); and the operation is
idempotent — running it twice leaves the directory exactly as running it
once. -/
theorem c9_cleanup_characterization (TAR_FILE : String) (INPUT_FILES : List InputFileRec)
    (fs : FS) (directory : String) :
    (∀ p, p ∈ (cleanup_bin_directory TAR_FILE INPUT_FILES fs directory).entries
      ↔ p ∈ fs.entries
        ∧ ∀ f ∈ TAR_FILE :: INPUT_FILES.map (fun g => g.name ++ ".bin"),
            p ≠ osPathJoin directory f)
    ∧ cleanup_bin_directory TAR_FILE INPUT_FILES
        (cleanup_bin_directory TAR_FILE INPUT_FILES fs directory) directory
      = cleanup_bin_directory TAR_FILE INPUT_FILES fs directory := by
  constructor
  · intro p
    exact cleanupLoopMem directory _ fs p
  · unfold cleanup_bin_directory
    apply cleanupLoopNoop
    intro f hf
    have hmem : osPathJoin directory f
        ∉ (cleanupLoop fs directory
            (TAR_FILE :: INPUT_FILES.map (fun g => g.name ++ ".bin"))).entries := by
      intro hin
      exact ((cleanupLoopMem directory _ fs (osPathJoin directory f)).mp hin).2 f hf rfl
    rw [FS.pathExists]
    exact containsEqFalseOfNotMem hmem

/-- Witness for C9: idempotence at a concrete directory state. -/
theorem c9_cleanup_witness :
    cleanup_bin_directory "inputs.tar.gz" sampleRegistry
        (cleanup_bin_directory "inputs.tar.gz" sampleRegistry
          (FS.mk ["d/loc.bin", "d/keep.csv"]) "d") "d"
      = cleanup_bin_directory "inputs.tar.gz" sampleRegistry
          (FS.mk ["d/loc.bin", "d/keep.csv"]) "d" :=
  (c9_cleanup_characterization "inputs.tar.gz" sampleRegistry
    (FS.mk ["d/loc.bin", "d/keep.csv"]) "d").2

/-- A successful copy reported by `prepare_input_bin` always has
`input/<name>.bin` as its destination. -/
theorem prepareInputBinOkSomeDst (fs : FS) (rd n : String)
    (ms : List (String × String)) (k : Option String) (ri : Bool) (pr : String × String)
    (h : prepare_input_bin fs rd n ms k ri = Except.ok (some pr)) :
    pr.2 = osPathJoin (osPathJoin rd "input") (n ++ ".bin") := by
  unfold prepare_input_bin at h
  split at h
  · exact absurd h (by simp)
  · split at h
    · exact absurd h (by simp)
    · have hp := Option.some.inj (Except.ok.inj h)
      rw [← hp]

/-- C10: `prepare_model_run_inputs` behaves identically whether its `ri` flag
is true or false — the flag never influences the computation — and every
static binary it copies is materialised into the base `input/` directory
(its destination is `input/<role>.bin` for one of the four static roles),
never into any `RI_<n>` layer. -/
theorem c10_ri_flag_immaterial (fs : FS) (s : AnalysisSettings) (rd : String) :
    prepare_model_run_inputs fs s rd true = prepare_model_run_inputs fs s rd false
    ∧ ∀ a ∈ exceptActions (prepare_model_run_inputs fs s rd true),
        a.2 = osPathJoin (osPathJoin rd "input") ("events" ++ ".bin")
        ∨ a.2 = osPathJoin (osPathJoin rd "input") ("returnperiods" ++ ".bin")
        ∨ a.2 = osPathJoin (osPathJoin rd "input") ("occurrence" ++ ".bin")
        ∨ a.2 = osPathJoin (osPathJoin rd "input") ("periods" ++ ".bin") := by
  constructor
  · rfl
  · intro a
    unfold prepare_model_run_inputs
    cases h1 : prepare_input_bin fs rd "events" s.model_settings (some "event_set") true with
    | error e => simp [exceptActions]
    | ok a1 =>
      cases h2 : prepare_input_bin fs rd "returnperiods" s.model_settings none true with
      | error e => simp [exceptActions]
      | ok a2 =>
        cases h3 : prepare_input_bin fs rd "occurrence" s.model_settings
            (some "event_occurrence_id") true with
        | error e => simp [exceptActions]
        | ok a3 =>
          cases hp : fs.pathExists (osPathJoin (osPathJoin rd "static") "periods.bin") with
          | false =>
            intro ha
            simp only [if_neg Bool.false_ne_true, exceptActions, Option.toList_none,
              List.append_nil, List.mem_append, Option.mem_toList, Option.mem_def] at ha
            rcases ha with (h | h) | h
            · exact Or.inl (prepareInputBinOkSomeDst fs rd "events" s.model_settings
                (some "event_set") true a (by rw [h1, h]))
            · exact Or.inr (Or.inl (prepareInputBinOkSomeDst fs rd "returnperiods"
                s.model_settings none true a (by rw [h2, h])))
            · exact Or.inr (Or.inr (Or.inl (prepareInputBinOkSomeDst fs rd "occurrence"
                s.model_settings (some "event_occurrence_id") true a (by rw [h3, h]))))
          | true =>
            cases h4 : prepare_input_bin fs rd "periods" s.model_settings none true with
            | error e => simp [exceptActions]
            | ok a4 =>
              intro ha
              simp only [eq_self_iff_true, ite_true, exceptActions, List.mem_append,
                Option.mem_toList, Option.mem_def] at ha
              rcases ha with ((h | h) | h) | h
              · exact Or.inl (prepareInputBinOkSomeDst fs rd "events" s.model_settings
                  (some "event_set") true a (by rw [h1, h]))
              · exact Or.inr (Or.inl (prepareInputBinOkSomeDst fs rd "returnperiods"
                  s.model_settings none true a (by rw [h2, h])))
              · exact Or.inr (Or.inr (Or.inl (prepareInputBinOkSomeDst fs rd "occurrence"
                  s.model_settings (some "event_occurrence_id") true a (by rw [h3, h]))))
              · exact Or.inr (Or.inr (Or.inr (prepareInputBinOkSomeDst fs rd "periods"
                  s.model_settings none true a (by rw [h4, h]))))

/-- Witness for C10: the ri-independence equation at a concrete run state. -/
theorem c10_ri_flag_witness :
    prepare_model_run_inputs
        (FS.mk ["run/static/events.bin", "run/static/returnperiods.bin",
          "run/static/occurrence.bin"]) (AnalysisSettings.mk []) "run" true
      = prepare_model_run_inputs
        (FS.mk ["run/static/events.bin", "run/static/returnperiods.bin",
          "run/static/occurrence.bin"]) (AnalysisSettings.mk []) "run" false :=
  (c10_ri_flag_immaterial
    (FS.mk ["run/static/events.bin", "run/static/returnperiods.bin",
      "run/static/occurrence.bin"]) (AnalysisSettings.mk []) "run").1

end Oasis
